import Mathlib

/-
  Formal model of `src/script.js` ("Sound of Melting Glaciers" page script).

  JavaScript numbers are modelled as exact rationals (ℚ). String-producing
  operations are modelled as executable Lean functions following the ECMAScript
  semantics of the constructs the script uses: `Number.prototype.toFixed`
  (sign split, round-to-nearest with ties away from zero, zero padding) and the
  thousands-separator regex replace in `formatNumber`
  (`value.toString().replace(/\B(?=(\d{3})+(?!\d))/g, ',')`, modelled gap by gap:
  a comma is inserted at a gap exactly when the gap is not a word boundary and
  the suffix starts with a positive multiple of three digits followed by a
  non-digit or the end). The DOM initialization sequence, the audio toggle
  handler and the map initializer are modelled as explicit state transformers.
-/

namespace SwissGlacier

/-- Data constant from script.js line 26: total glacier volume at the start of 2024 (km³). -/
def START_VOLUME_KM3 : ℚ := 46.4

/-- Data constant from script.js line 27: estimated ice loss in 2024 (km³). -/
def YEARLY_MELT_KM3 : ℚ := 1.2

/-- Data constant from script.js line 28: litres per water truck. -/
def TRUCK_CAPACITY_L : ℚ := 10000

/-- Derived constant from script.js line 31. -/
def SECONDS_PER_YEAR : ℚ := 365 * 24 * 60 * 60

/-- Derived constant from script.js line 32. -/
def MELT_RATE_M3_PER_SEC : ℚ := (YEARLY_MELT_KM3 * 1e9) / SECONDS_PER_YEAR

/-- Derived constant from script.js line 33. -/
def MELT_RATE_L_PER_SEC : ℚ := MELT_RATE_M3_PER_SEC * 1000

/-- Derived constant from script.js line 34. -/
def TRUCK_RATE_PER_SEC : ℚ := MELT_RATE_L_PER_SEC / TRUCK_CAPACITY_L

/-- Melted volume in cubic metres as a function of the elapsed seconds since the
epoch (script.js line 57: `secondsSinceStart * MELT_RATE_M3_PER_SEC`). -/
def meltedM3 (t : ℚ) : ℚ := t * MELT_RATE_M3_PER_SEC

/-- Melted volume in litres (script.js line 58). -/
def meltedL (t : ℚ) : ℚ := meltedM3 t * 1000

/-- Truck equivalents (script.js line 59: `secondsSinceStart * TRUCK_RATE_PER_SEC`). -/
def trucks (t : ℚ) : ℚ := t * TRUCK_RATE_PER_SEC

/-- Remaining volume before clamping (script.js line 61). -/
def remainingRaw (t : ℚ) : ℚ :=
  START_VOLUME_KM3 - YEARLY_MELT_KM3 * (t / SECONDS_PER_YEAR)

/-- Remaining volume in km³ after the clamp on script.js line 62
(`if (remainingKm3 < 0) remainingKm3 = 0`). -/
def remainingKm3 (t : ℚ) : ℚ :=
  if remainingRaw t < 0 then 0 else remainingRaw t

/-- Word character in the sense of the JavaScript regex class `\w`. -/
def jsIsWordChar (c : Char) : Bool :=
  (('A' ≤ c) && (c ≤ 'Z')) || (('a' ≤ c) && (c ≤ 'z')) || (('0' ≤ c) && (c ≤ '9')) || (c == '_')

/-- Digit character in the sense of the JavaScript regex class `\d`. -/
def jsIsDigit (c : Char) : Bool := ('0' ≤ c) && (c ≤ '9')

/-- Number of leading `\d` characters of a character list. -/
def leadingDigits : List Char → Nat
  | [] => 0
  | c :: rest => if jsIsDigit c then leadingDigits rest + 1 else 0

/-- Whether the lookahead `(?=(\d{3})+(?!\d))` of the formatNumber regex matches at a
position whose suffix is `l`: the suffix must start with `3k` digits (`k ≥ 1`)
followed by a non-digit or the end, i.e. the leading digit count is a positive
multiple of three. -/
def sepLookahead (l : List Char) : Bool :=
  decide (3 ≤ leadingDigits l ∧ leadingDigits l % 3 = 0)

/-- Whether `\B` matches at the gap between the previous character (none at the start
of the string) and the next character `c`. -/
def nonBoundary : Option Char → Char → Bool
  | none, c => !(jsIsWordChar c)
  | some p, c => jsIsWordChar p == jsIsWordChar c

/-- Global replace of the zero-width pattern `\B(?=(\d{3})+(?!\d))` by a comma,
walking the string left to right and inserting a comma at every matching gap. -/
def fmtAux : Option Char → List Char → List Char
  | _, [] => []
  | prev, c :: rest =>
    (if nonBoundary prev c && sepLookahead (c :: rest) then [','] else []) ++
      (c :: fmtAux (some c) rest)

/-- formatNumber (script.js lines 48-50):
`value.toString().replace(/\B(?=(\d{3})+(?!\d))/g, ',')`. The argument is already a
string at both call sites, so `toString` is the identity. -/
def formatNumber (value : String) : String := String.mk (fmtAux none value.data)

/-- Specification-side grouping: chunks of three characters taken from the front of a
reversed (little-endian) character list, separated by commas. -/
def chunk3 : List Char → List Char
  | [] => []
  | [a] => [a]
  | [a, b] => [a, b]
  | [a, b, c] => [a, b, c]
  | a :: b :: c :: d :: rest => a :: b :: c :: ',' :: chunk3 (d :: rest)

/-- Specification-side description of thousands grouping: split the string into groups
of three digits from the right and join the groups with commas (the leftmost group may
be shorter, and no leading separator is produced). -/
def groupedFromRight (s : String) : String := String.mk (chunk3 s.data.reverse).reverse

/-- Predicate: every character of the list is a digit. -/
def allDigits (l : List Char) : Prop := ∀ c ∈ l, jsIsDigit c = true

/-- String produced by `Number.prototype.toFixed` once the sign and the rounded
integer `n` of scaled units are known: for `f = 0` just the decimal digits of `n`,
otherwise the digits of `n` padded with leading zeros to at least `f + 1` characters
and split by a decimal point `f` places from the right (ECMAScript
Number.prototype.toFixed, steps producing the digit string). -/
def fixedFromNat (sign : List Char) (n f : ℕ) : String :=
  if f = 0 then String.mk (sign ++ (Nat.repr n).data)
  else
    let ds := (Nat.repr n).data
    let ds2 := if ds.length ≤ f then List.replicate (f + 1 - ds.length) '0' ++ ds else ds
    String.mk (sign ++ (ds2.take (ds2.length - f) ++ '.' :: ds2.drop (ds2.length - f)))

/-- Model of `x.toFixed(f)` for the exact-rational model of a JavaScript number:
if `x < 0` the sign is a minus and `x` is negated (ECMAScript toFixed step 6),
then `n` is the integer closest to `x * 10 ^ f`, ties picking the larger `n`
(floor of the value plus one half). -/
def jsToFixed (x : ℚ) (f : ℕ) : String :=
  if x < 0 then fixedFromNat ['-'] (⌊-x * 10 ^ f + 1 / 2⌋).toNat f
  else fixedFromNat [] (⌊x * 10 ^ f + 1 / 2⌋).toNat f

/-- The three strings written to the display regions by updateCounters
(script.js lines 65-67) as a function of the elapsed seconds `t`:
`remainingKm3.toFixed(2)`, `formatNumber(meltedM3.toFixed(0))` and
`formatNumber(trucks.toFixed(0))`. -/
def updateCounters (t : ℚ) : String × String × String :=
  (jsToFixed (remainingKm3 t) 2,
   formatNumber (jsToFixed (meltedM3 t) 0),
   formatNumber (jsToFixed (trucks t) 0))

/-- State touched by the audio toggle click handler (script.js lines 75-85): the
media element's mute flag, the button's text content and whether the button's class
list contains the visual-active class. -/
structure AudioState where
  muted : Bool
  label : String
  active : Bool
  deriving DecidableEq

/-- Audio toggle click handler (script.js lines 75-85): if the video is muted,
unmute it, set the label to the mute prompt and mark the button active; otherwise
mute it, set the label to the unmute prompt and unmark the button. -/
def audioToggleClick (s : AudioState) : AudioState :=
  if s.muted then { muted := false, label := ("Ton ausschalten"), active := true }
  else { muted := true, label := ("Ton abspielen"), active := false }

/-- Consistency of label and visual-active flag with the mute flag, as established by
the handler itself. -/
def audioConsistent (s : AudioState) : Prop :=
  s.label = (if s.muted then ("Ton abspielen") else ("Ton ausschalten"))
    ∧ s.active = !s.muted

/-- Which of the five element ids looked up at script.js lines 37-41 are present in
the page (`document.getElementById` yields null for an absent id without failing). -/
structure DomPresence where
  volumeRemaining : Bool
  meltedSince : Bool
  truckCount : Bool
  audioToggle : Bool
  backgroundVideo : Bool
  deriving DecidableEq

/-- Result of running the script's IIFE (script.js lines 24-137): whether the
repeating one-second interval was scheduled (line 72), whether the click listener was
attached (line 75), whether `window.initMap` was assigned (line 89), and the uncaught
error, if any, that aborted the IIFE. -/
structure InitOutcome where
  intervalScheduled : Bool
  listenerAttached : Bool
  initMapExposed : Bool
  error : Option String
  deriving DecidableEq

/-- Model of the IIFE's initialization sequence. The first synchronous
`updateCounters()` call (line 71) dereferences volumeEl, meltedEl and trucksEl in
order (lines 65-67) and throws a host TypeError at the first null one, aborting
before `setInterval` (line 72). Otherwise the interval is scheduled and then
`addEventListener` on a null button (line 75) throws with the interval already
running; otherwise the listener attaches and `window.initMap` is assigned (line 89).
A missing video element causes no error at initialization time, because videoEl is
only dereferenced inside the click handler (line 76). -/
def runInit (d : DomPresence) : InitOutcome :=
  if !d.volumeRemaining then ⟨false, false, false, some ("TypeError: volumeEl is null")⟩
  else if !d.meltedSince then ⟨false, false, false, some ("TypeError: meltedEl is null")⟩
  else if !d.truckCount then ⟨false, false, false, some ("TypeError: trucksEl is null")⟩
  else if !d.audioToggle then ⟨true, false, false, some ("TypeError: audioToggleBtn is null")⟩
  else ⟨true, true, true, none⟩

/-- Geographic coordinate (script.js line 90). -/
structure LatLng where
  lat : ℚ
  lng : ℚ
  deriving DecidableEq

/-- The fixed Matterhorn coordinate (script.js line 90). -/
def matterhorn : LatLng := ⟨45.97631, 7.65827⟩

/-- Map construction options (script.js lines 91-98). -/
structure MapOptions where
  center : LatLng
  zoom : ℕ
  mapTypeId : String
  tilt : ℕ
  heading : ℕ
  disableDefaultUI : Bool
  deriving DecidableEq

/-- One styler entry of a style rule (a colour override). -/
structure MapStyler where
  color : String
  deriving DecidableEq

/-- One rule of the style list: optional feature-type selector, element-type
selector, and the style properties to apply. -/
structure MapStyleRule where
  featureType : Option String
  elementType : String
  stylers : List MapStyler
  deriving DecidableEq

/-- Marker construction options (script.js lines 132-136). -/
structure MarkerOptions where
  position : LatLng
  title : String
  deriving DecidableEq

/-- A constructed map: its construction options and its current style list
(`map.setOptions({ styles })` replaces the style list wholesale). -/
structure GMap where
  options : MapOptions
  styles : List MapStyleRule
  deriving DecidableEq

/-- The dark theme style list (script.js lines 100-129), in source order. -/
def darkStyle : List MapStyleRule :=
  [⟨none, ("geometry"), [⟨("#1e1e1e")⟩]⟩,
   ⟨none, ("labels.text.fill"), [⟨("#757575")⟩]⟩,
   ⟨none, ("labels.text.stroke"), [⟨("#1e1e1e")⟩]⟩,
   ⟨some ("administrative.locality"), ("labels.text.fill"), [⟨("#d6d6d6")⟩]⟩,
   ⟨some ("road"), ("geometry"), [⟨("#383838")⟩]⟩,
   ⟨some ("road"), ("geometry.stroke"), [⟨("#1e1e1e")⟩]⟩,
   ⟨some ("water"), ("geometry"), [⟨("#0a3148")⟩]⟩,
   ⟨some ("poi.park"), ("geometry"), [⟨("#0c3b47")⟩]⟩]

/-- Model of `window.initMap` (script.js lines 89-137): construct one map with the
fixed options, replace its styles with the dark theme via `setOptions` (the Maps API
`styles` option replaces the default styling rather than merging with it), and
construct one marker. The result collects the constructed maps and markers. -/
def initMap : List GMap × List MarkerOptions :=
  let map0 : GMap := ⟨⟨matterhorn, 13, ("hybrid"), 45, 0, true⟩, []⟩
  let map1 : GMap := { map0 with styles := darkStyle }
  ([map1], [⟨matterhorn, ("Matterhorn")⟩])

lemma seconds_per_year_pos : (0 : ℚ) < SECONDS_PER_YEAR := by
  norm_num [SECONDS_PER_YEAR]

lemma melt_rate_pos : (0 : ℚ) < MELT_RATE_M3_PER_SEC := by
  norm_num [MELT_RATE_M3_PER_SEC, YEARLY_MELT_KM3, SECONDS_PER_YEAR]

lemma truck_rate_pos : (0 : ℚ) < TRUCK_RATE_PER_SEC := by
  norm_num [TRUCK_RATE_PER_SEC, MELT_RATE_L_PER_SEC, MELT_RATE_M3_PER_SEC,
    YEARLY_MELT_KM3, SECONDS_PER_YEAR, TRUCK_CAPACITY_L]

lemma remainingRaw_antitone {s t : ℚ} (h : s ≤ t) : remainingRaw t ≤ remainingRaw s := by
  unfold remainingRaw
  have h2 : s / SECONDS_PER_YEAR ≤ t / SECONDS_PER_YEAR :=
    (div_le_div_iff_of_pos_right seconds_per_year_pos).mpr h
  have h3 : YEARLY_MELT_KM3 * (s / SECONDS_PER_YEAR) ≤
      YEARLY_MELT_KM3 * (t / SECONDS_PER_YEAR) :=
    mul_le_mul_of_nonneg_left h2 (by norm_num [YEARLY_MELT_KM3])
  linarith

lemma remainingKm3_eq_max (t : ℚ) :
    remainingKm3 t = max 0 (START_VOLUME_KM3 - YEARLY_MELT_KM3 * t / SECONDS_PER_YEAR) := by
  unfold remainingKm3 remainingRaw
  rw [mul_div_assoc]
  split_ifs with h
  · exact (max_eq_left h.le).symm
  · exact (max_eq_right (not_lt.mp h)).symm

lemma remainingKm3_nonneg (t : ℚ) : 0 ≤ remainingKm3 t := by
  unfold remainingKm3
  split_ifs with h
  · exact le_rfl
  · exact not_lt.mp h

lemma remainingRaw_zero_at_exhaustion :
    remainingRaw (SECONDS_PER_YEAR * START_VOLUME_KM3 / YEARLY_MELT_KM3) = 0 := by
  norm_num [remainingRaw, SECONDS_PER_YEAR, START_VOLUME_KM3, YEARLY_MELT_KM3]

lemma digit_isWord {c : Char} (h : jsIsDigit c = true) : jsIsWordChar c = true := by
  unfold jsIsDigit at h
  unfold jsIsWordChar
  simp only [Bool.and_eq_true, decide_eq_true_eq] at h
  simp [h.1, h.2]

lemma leadingDigits_eq_length {l : List Char} (h : allDigits l) :
    leadingDigits l = l.length := by
  induction l with
  | nil => rfl
  | cons c rest ih =>
    have hc : jsIsDigit c = true := h c (List.mem_cons_self c rest)
    have hr : allDigits rest := fun d hd => h d (List.mem_cons_of_mem c hd)
    simp [leadingDigits, hc, ih hr]

lemma allDigits_append3 {f : List Char} (hf : allDigits f) {x y z : Char}
    (hx : jsIsDigit x = true) (hy : jsIsDigit y = true) (hz : jsIsDigit z = true) :
    allDigits (f ++ [x, y, z]) := by
  intro c hc
  rcases List.mem_append.mp hc with h | h
  · exact hf c h
  · simp only [List.mem_cons, List.not_mem_nil, or_false] at h
    rcases h with rfl | rfl | rfl
    exacts [hx, hy, hz]

lemma sepLookahead_append3 {f : List Char} (hf : allDigits f) (hne : f ≠ []) {x y z : Char}
    (hx : jsIsDigit x = true) (hy : jsIsDigit y = true) (hz : jsIsDigit z = true) :
    sepLookahead (f ++ [x, y, z]) = sepLookahead f := by
  have h1 : allDigits (f ++ [x, y, z]) := allDigits_append3 hf hx hy hz
  rw [sepLookahead, sepLookahead, leadingDigits_eq_length h1, leadingDigits_eq_length hf]
  have hl : 1 ≤ f.length := List.length_pos.mpr hne
  simp only [List.length_append, List.length_cons, List.length_nil]
  exact decide_eq_decide.mpr (by omega)

lemma fmtAux_append3 {f : List Char} (hf : allDigits f) {x y z : Char}
    (hx : jsIsDigit x = true) (hy : jsIsDigit y = true) (hz : jsIsDigit z = true) :
    ∀ {p : Char}, jsIsWordChar p = true →
      fmtAux (some p) (f ++ [x, y, z]) = fmtAux (some p) f ++ ',' :: [x, y, z] := by
  induction f with
  | nil =>
    intro p hp
    simp [fmtAux, nonBoundary, sepLookahead, leadingDigits, hx, hy, hz, hp,
      digit_isWord hx, digit_isWord hy, digit_isWord hz]
  | cons a f' ih =>
    intro p hp
    have ha : jsIsDigit a = true := hf a (List.mem_cons_self a f')
    have hf' : allDigits f' := fun d hd => hf d (List.mem_cons_of_mem a hd)
    have hsep : sepLookahead ((a :: f') ++ [x, y, z]) = sepLookahead (a :: f') :=
      sepLookahead_append3 hf (List.cons_ne_nil a f') hx hy hz
    simp only [List.cons_append] at hsep ⊢
    simp only [fmtAux, hsep]
    rw [ih hf' (digit_isWord ha)]
    simp [List.append_assoc]

lemma fmtAux_none_append3 {f : List Char} (hf : allDigits f) (hne : f ≠ []) {x y z : Char}
    (hx : jsIsDigit x = true) (hy : jsIsDigit y = true) (hz : jsIsDigit z = true) :
    fmtAux none (f ++ [x, y, z]) = fmtAux none f ++ ',' :: [x, y, z] := by
  obtain ⟨a, f', rfl⟩ := List.exists_cons_of_ne_nil hne
  have ha : jsIsDigit a = true := hf a (List.mem_cons_self a f')
  have hf' : allDigits f' := fun d hd => hf d (List.mem_cons_of_mem a hd)
  simp only [List.cons_append, fmtAux, List.append_eq]
  rw [fmtAux_append3 hf' hx hy hz (digit_isWord ha)]
  simp [nonBoundary, digit_isWord ha, List.append_assoc]

lemma fmtAux_none_group : ∀ r : List Char, allDigits r.reverse →
    fmtAux none r.reverse = (chunk3 r).reverse := by
  intro r
  induction r using chunk3.induct with
  | case1 => intro _; rfl
  | case2 a =>
    intro h
    have ha : jsIsDigit a = true := h a (by simp)
    simp [fmtAux, nonBoundary, sepLookahead, leadingDigits, ha, digit_isWord ha, chunk3]
  | case3 a b =>
    intro h
    have ha : jsIsDigit a = true := h a (by simp)
    have hb : jsIsDigit b = true := h b (by simp)
    simp [fmtAux, nonBoundary, sepLookahead, leadingDigits, ha, hb,
      digit_isWord ha, digit_isWord hb, chunk3]
  | case4 a b c =>
    intro h
    have ha : jsIsDigit a = true := h a (by simp)
    have hb : jsIsDigit b = true := h b (by simp)
    have hc : jsIsDigit c = true := h c (by simp)
    simp [fmtAux, nonBoundary, sepLookahead, leadingDigits, ha, hb, hc,
      digit_isWord ha, digit_isWord hb, digit_isWord hc, chunk3]
  | case5 a b c d rest ih =>
    intro h
    have ha : jsIsDigit a = true := h a (by simp)
    have hb : jsIsDigit b = true := h b (by simp)
    have hc : jsIsDigit c = true := h c (by simp)
    have hrev : (a :: b :: c :: d :: rest).reverse = (d :: rest).reverse ++ [c, b, a] := by
      simp
    have hd1 : allDigits ((d :: rest).reverse) := by
      intro e he
      exact h e (by rw [hrev]; exact List.mem_append.mpr (Or.inl he))
    have hne : (d :: rest).reverse ≠ [] := by simp
    rw [hrev, fmtAux_none_append3 hd1 hne hc hb ha, ih hd1]
    simp [chunk3]

lemma digitChar_isDigit {n : ℕ} (h : n < 10) : jsIsDigit (Nat.digitChar n) = true := by
  interval_cases n <;> decide

lemma toDigitsCore_all_digits : ∀ (f n : ℕ) (acc : List Char),
    allDigits acc → allDigits (Nat.toDigitsCore 10 f n acc) := by
  intro f
  induction f with
  | zero => intro n acc h; simpa [Nat.toDigitsCore] using h
  | succ f ih =>
    intro n acc h
    have hacc : allDigits (Nat.digitChar (n % 10) :: acc) := by
      intro c hc
      rcases List.mem_cons.mp hc with rfl | hc
      · exact digitChar_isDigit (Nat.mod_lt n (by norm_num))
      · exact h c hc
    rw [Nat.toDigitsCore]
    by_cases hd : n / 10 = 0
    · simpa [hd] using hacc
    · simpa [hd] using ih (n / 10) _ hacc

lemma toDigitsCore_length_ge : ∀ (f n : ℕ) (acc : List Char),
    acc.length ≤ (Nat.toDigitsCore 10 f n acc).length := by
  intro f
  induction f with
  | zero => intro n acc; simp [Nat.toDigitsCore]
  | succ f ih =>
    intro n acc
    rw [Nat.toDigitsCore]
    by_cases hd : n / 10 = 0
    · simp [hd]
    · have := ih (n / 10) (Nat.digitChar (n % 10) :: acc)
      simp only [List.length_cons] at this
      simpa [hd] using le_trans (Nat.le_succ _) this

lemma repr_data_all_digits (n : ℕ) : allDigits (Nat.repr n).data := by
  have h := toDigitsCore_all_digits (n + 1) n [] (by intro c hc; cases hc)
  simpa [Nat.repr, Nat.toDigits, List.asString] using h

lemma toDigitsCore_pos (f n : ℕ) : 1 ≤ (Nat.toDigitsCore 10 (f + 1) n []).length := by
  rw [Nat.toDigitsCore]
  by_cases hd : n / 10 = 0
  · simp [hd]
  · have h1 := toDigitsCore_length_ge f (n / 10) [Nat.digitChar (n % 10)]
    simp only [List.length_cons, List.length_nil] at h1
    simp only [if_neg hd]
    omega

lemma repr_data_ne_nil (n : ℕ) : (Nat.repr n).data ≠ [] := by
  have h := toDigitsCore_pos n n
  rw [show (Nat.repr n).data = Nat.toDigitsCore 10 (n + 1) n [] from rfl]
  exact List.length_pos.mp (lt_of_lt_of_le zero_lt_one h)

lemma jsToFixed_nonneg {x : ℚ} (f : ℕ) (hx : 0 ≤ x) {n : ℤ} (hn : ⌊x * 10 ^ f + 1 / 2⌋ = n) :
    jsToFixed x f = fixedFromNat [] n.toNat f := by
  rw [jsToFixed, if_neg (not_lt.mpr hx), hn]

lemma jsToFixed_neg {x : ℚ} (f : ℕ) (hx : x < 0) {n : ℤ} (hn : ⌊-x * 10 ^ f + 1 / 2⌋ = n) :
    jsToFixed x f = fixedFromNat ['-'] n.toNat f := by
  rw [jsToFixed, if_pos hx, hn]

lemma jsToFixed_neg_small {x : ℚ} (h1 : -(1 / 2) < x) (h2 : x < 0) :
    jsToFixed x 0 = ("-0") := by
  have hfl : ⌊-x * 10 ^ 0 + 1 / 2⌋ = 0 := by
    rw [pow_zero, mul_one, Int.floor_eq_zero_iff, Set.mem_Ico]
    constructor <;> linarith
  rw [jsToFixed_neg 0 h2 hfl]
  decide

lemma jsToFixed_round_nonneg {x : ℚ} (hx : 0 ≤ x) :
    ∃ n : ℕ, jsToFixed x 0 = String.mk (Nat.repr n).data ∧ |(n : ℚ) - x| ≤ 1 / 2 := by
  refine ⟨(⌊x * 10 ^ 0 + 1 / 2⌋).toNat, ?_, ?_⟩
  · rw [jsToFixed_nonneg 0 hx rfl, fixedFromNat, if_pos rfl]
    simp
  · have h0 : (0 : ℤ) ≤ ⌊x * 10 ^ 0 + 1 / 2⌋ := by
      apply Int.floor_nonneg.mpr
      rw [pow_zero, mul_one]
      linarith
    have hcast : (((⌊x * 10 ^ 0 + 1 / 2⌋).toNat : ℕ) : ℚ) = ((⌊x * 10 ^ 0 + 1 / 2⌋ : ℤ) : ℚ) := by
      exact_mod_cast congrArg (fun z : ℤ => (z : ℚ)) (Int.toNat_of_nonneg h0)
    have hfb : ((⌊x * 10 ^ 0 + 1 / 2⌋ : ℤ) : ℚ) ≤ x * 10 ^ 0 + 1 / 2 := Int.floor_le _
    have hfb2 : x * 10 ^ 0 + 1 / 2 < ((⌊x * 10 ^ 0 + 1 / 2⌋ : ℤ) : ℚ) + 1 := Int.lt_floor_add_one _
    have hpow : x * 10 ^ 0 = x := by ring
    rw [hcast, abs_le]
    constructor <;> linarith

lemma jsToFixed_two_decimals {x : ℚ} (hx : 0 ≤ x) :
    ∃ a b : List Char, jsToFixed x 2 = String.mk (a ++ '.' :: b) ∧ b.length = 2
      ∧ allDigits a ∧ allDigits b := by
  rw [jsToFixed_nonneg 2 hx rfl, fixedFromNat, if_neg (by norm_num)]
  set n : ℕ := (⌊x * 10 ^ 2 + 1 / 2⌋).toNat with hn
  set ds : List Char := (Nat.repr n).data with hds
  set ds2 : List Char := if ds.length ≤ 2 then List.replicate (2 + 1 - ds.length) '0' ++ ds else ds
    with hds2
  have hdig : allDigits ds := by rw [hds]; exact repr_data_all_digits n
  have hne : ds ≠ [] := by rw [hds]; exact repr_data_ne_nil n
  have hall : allDigits ds2 := by
    rw [hds2]
    by_cases hc2 : ds.length ≤ 2
    · rw [if_pos hc2]
      intro c hc
      rcases List.mem_append.mp hc with h | h
      · rw [List.eq_of_mem_replicate h]; decide
      · exact hdig c h
    · rw [if_neg hc2]; exact hdig
  have hlen : 3 ≤ ds2.length := by
    have h1 : 1 ≤ ds.length := List.length_pos.mpr hne
    rw [hds2]
    by_cases hc2 : ds.length ≤ 2
    · rw [if_pos hc2]
      simp only [List.length_append, List.length_replicate]
      omega
    · rw [if_neg hc2]
      omega
  refine ⟨ds2.take (ds2.length - 2), ds2.drop (ds2.length - 2), by simp, ?_, ?_, ?_⟩
  · rw [List.length_drop]; omega
  · intro c hc; exact hall c (List.mem_of_mem_take hc)
  · intro c hc; exact hall c (List.mem_of_mem_drop hc)

lemma dash_not_word : jsIsWordChar ('-') = false := by decide

lemma fmtAux_dash {l : List Char} (h : allDigits l) :
    fmtAux (some ('-')) l = fmtAux none l := by
  cases l with
  | nil => rfl
  | cons c rest =>
    have hc : jsIsDigit c = true := h c (List.mem_cons_self c rest)
    simp [fmtAux, nonBoundary, digit_isWord hc, dash_not_word]

lemma formatNumber_dash {l : List Char} (h : allDigits l) :
    formatNumber (String.mk ('-' :: l)) = String.mk ('-' :: (formatNumber (String.mk l)).data) := by
  show String.mk (fmtAux none ('-' :: l)) = String.mk ('-' :: fmtAux none l)
  have h1 : leadingDigits ('-' :: l) = 0 := by simp [leadingDigits]; decide
  simp [fmtAux, nonBoundary, sepLookahead, h1, fmtAux_dash h, dash_not_word]

/-- C1: for every elapsed time `t ≥ 0`, the remaining volume computed by the counter
update equals `max 0 (startVolumeKm3 - yearlyLossKm3 * t / secondsPerYear)`; it is
non-increasing in `t`, is exactly `0` at `t = secondsPerYear * startVolumeKm3 /
yearlyLossKm3`, and stays `0` for every larger `t`. -/
theorem remaining_volume_spec :
    (∀ t : ℚ, 0 ≤ t →
      remainingKm3 t = max 0 (START_VOLUME_KM3 - YEARLY_MELT_KM3 * t / SECONDS_PER_YEAR))
    ∧ (∀ s t : ℚ, 0 ≤ s → s ≤ t → remainingKm3 t ≤ remainingKm3 s)
    ∧ remainingKm3 (SECONDS_PER_YEAR * START_VOLUME_KM3 / YEARLY_MELT_KM3) = 0
    ∧ (∀ t : ℚ, SECONDS_PER_YEAR * START_VOLUME_KM3 / YEARLY_MELT_KM3 ≤ t →
        remainingKm3 t = 0) := by
  refine ⟨fun t _ => remainingKm3_eq_max t, ?_, ?_, ?_⟩
  · intro s t _ hst
    unfold remainingKm3
    have h1 := remainingRaw_antitone hst
    split_ifs <;> linarith
  · unfold remainingKm3
    rw [remainingRaw_zero_at_exhaustion]
    norm_num
  · intro t ht
    have h1 : remainingRaw t ≤
        remainingRaw (SECONDS_PER_YEAR * START_VOLUME_KM3 / YEARLY_MELT_KM3) :=
      remainingRaw_antitone ht
    rw [remainingRaw_zero_at_exhaustion] at h1
    unfold remainingKm3
    split_ifs with h2
    · rfl
    · linarith

/-- Witness for C1 at concrete inputs. -/
theorem remaining_volume_spec_witness :
    remainingKm3 0 = max 0 (START_VOLUME_KM3 - YEARLY_MELT_KM3 * 0 / SECONDS_PER_YEAR)
    ∧ remainingKm3 1 ≤ remainingKm3 0
    ∧ remainingKm3 (SECONDS_PER_YEAR * START_VOLUME_KM3 / YEARLY_MELT_KM3 + 1) = 0 :=
  ⟨remaining_volume_spec.1 0 le_rfl,
   remaining_volume_spec.2.1 0 1 le_rfl (by norm_num),
   remaining_volume_spec.2.2.2 _ (by linarith [seconds_per_year_pos])⟩

/-- C2: for every elapsed time `t` (positive, zero or negative), the melted volume
computed by the counter update equals `t * MELT_RATE_M3_PER_SEC` exactly, is additive
in `t` (exactly linear), and is `0` at `t = 0`. -/
theorem melted_volume_linear :
    (∀ t : ℚ, meltedM3 t = t * MELT_RATE_M3_PER_SEC)
    ∧ meltedM3 0 = 0
    ∧ (∀ s t : ℚ, meltedM3 (s + t) = meltedM3 s + meltedM3 t) := by
  refine ⟨fun _ => rfl, by norm_num [meltedM3], fun s t => ?_⟩
  unfold meltedM3
  ring

/-- C3: the derived rates are computed from the constants exactly as specified, and
with the program's constants, at `t = SECONDS_PER_YEAR` the counter update yields
remaining volume `45.2` km³, melted volume `1.2e9` m³ and `1.2e8` truck equivalents,
all exactly (in the exact-rational model of JavaScript arithmetic). -/
theorem derived_rates_and_one_year_values :
    MELT_RATE_M3_PER_SEC = YEARLY_MELT_KM3 * 1e9 / SECONDS_PER_YEAR
    ∧ MELT_RATE_L_PER_SEC = MELT_RATE_M3_PER_SEC * 1000
    ∧ TRUCK_RATE_PER_SEC = MELT_RATE_L_PER_SEC / TRUCK_CAPACITY_L
    ∧ START_VOLUME_KM3 = 46.4
    ∧ YEARLY_MELT_KM3 = 1.2
    ∧ TRUCK_CAPACITY_L = 10000
    ∧ SECONDS_PER_YEAR = 365 * 24 * 3600
    ∧ remainingKm3 SECONDS_PER_YEAR = 45.2
    ∧ meltedM3 SECONDS_PER_YEAR = 1.2e9
    ∧ trucks SECONDS_PER_YEAR = 1.2e8 := by
  refine ⟨rfl, rfl, rfl, rfl, rfl, rfl, ?_, ?_, ?_, ?_⟩
  · norm_num [SECONDS_PER_YEAR]
  · have h : remainingRaw SECONDS_PER_YEAR = 45.2 := by
      norm_num [remainingRaw, SECONDS_PER_YEAR, START_VOLUME_KM3, YEARLY_MELT_KM3]
    rw [remainingKm3, h]
    norm_num
  · norm_num [meltedM3, MELT_RATE_M3_PER_SEC, YEARLY_MELT_KM3, SECONDS_PER_YEAR]
  · norm_num [trucks, TRUCK_RATE_PER_SEC, MELT_RATE_L_PER_SEC, MELT_RATE_M3_PER_SEC,
      YEARLY_MELT_KM3, SECONDS_PER_YEAR, TRUCK_CAPACITY_L]

/-- C5: melted volume and truck equivalents are non-negative and monotonically
non-decreasing for `t ≥ 0`, and both are strictly negative for `t < 0` (they are
not clamped at zero, unlike the remaining volume). -/
theorem melted_trucks_monotone_sign :
    (∀ t : ℚ, 0 ≤ t → 0 ≤ meltedM3 t ∧ 0 ≤ trucks t)
    ∧ (∀ s t : ℚ, 0 ≤ s → s ≤ t → meltedM3 s ≤ meltedM3 t ∧ trucks s ≤ trucks t)
    ∧ (∀ t : ℚ, t < 0 → meltedM3 t < 0 ∧ trucks t < 0) := by
  refine ⟨fun t ht => ⟨?_, ?_⟩, fun s t _ hst => ⟨?_, ?_⟩, fun t ht => ⟨?_, ?_⟩⟩
  · exact mul_nonneg ht melt_rate_pos.le
  · exact mul_nonneg ht truck_rate_pos.le
  · exact mul_le_mul_of_nonneg_right hst melt_rate_pos.le
  · exact mul_le_mul_of_nonneg_right hst truck_rate_pos.le
  · exact mul_neg_of_neg_of_pos ht melt_rate_pos
  · exact mul_neg_of_neg_of_pos ht truck_rate_pos

/-- Witness for C5 at concrete inputs. -/
theorem melted_trucks_monotone_sign_witness :
    (0 ≤ meltedM3 1 ∧ 0 ≤ trucks 1)
    ∧ (meltedM3 1 ≤ meltedM3 2 ∧ trucks 1 ≤ trucks 2)
    ∧ (meltedM3 (-1) < 0 ∧ trucks (-1) < 0) :=
  ⟨melted_trucks_monotone_sign.1 1 (by norm_num),
   melted_trucks_monotone_sign.2.1 1 2 (by norm_num) (by norm_num),
   melted_trucks_monotone_sign.2.2 (-1) (by norm_num)⟩

/-- C4: display formatting. The remaining volume is rendered with exactly two digits
after a decimal point; the melted volume and the truck count are rendered by rounding
to the nearest whole unit and grouping the digit string with a separator every three
digits from the right (no leading separator, no decimal part); grouping a digit string
agrees exactly with chunking it in threes from the right; formatting 1234567 yields
1,234,567, 999 yields 999 and 1000 yields 1,000; and at `t = 0` the three display
regions show 46.40, 0 and 0. -/
theorem display_formatting :
    (∀ l : List Char, allDigits l →
      formatNumber (String.mk l) = groupedFromRight (String.mk l))
    ∧ formatNumber ("1234567") = ("1,234,567")
    ∧ formatNumber ("999") = ("999")
    ∧ formatNumber ("1000") = ("1,000")
    ∧ updateCounters 0 = (("46.40"), ("0"), ("0"))
    ∧ (∀ t : ℚ, ∃ a b : List Char, (updateCounters t).1 = String.mk (a ++ '.' :: b)
        ∧ b.length = 2 ∧ allDigits a ∧ allDigits b)
    ∧ (∀ x : ℚ, 0 ≤ x → ∃ n : ℕ, jsToFixed x 0 = String.mk (Nat.repr n).data
        ∧ |(n : ℚ) - x| ≤ 1 / 2) := by
  refine ⟨?_, by decide, by decide, by decide, ?_, ?_, fun x hx => jsToFixed_round_nonneg hx⟩
  · intro l h
    have h2 : allDigits l.reverse.reverse := by
      rw [List.reverse_reverse]; exact h
    have h3 := fmtAux_none_group l.reverse h2
    rw [List.reverse_reverse] at h3
    show String.mk (fmtAux none l) = String.mk (chunk3 l.reverse).reverse
    rw [h3]
  · have hr : remainingKm3 0 = 46.4 := by
      have h : remainingRaw 0 = 46.4 := by
        norm_num [remainingRaw, SECONDS_PER_YEAR, START_VOLUME_KM3, YEARLY_MELT_KM3]
      rw [remainingKm3, h]
      norm_num
    have hm : meltedM3 0 = 0 := by norm_num [meltedM3]
    have ht : trucks 0 = 0 := by norm_num [trucks]
    show (jsToFixed (remainingKm3 0) 2, formatNumber (jsToFixed (meltedM3 0) 0),
      formatNumber (jsToFixed (trucks 0) 0)) = (("46.40"), ("0"), ("0"))
    rw [hr, hm, ht]
    rw [jsToFixed_nonneg 2 (by norm_num) (show ⌊(46.4 : ℚ) * 10 ^ 2 + 1 / 2⌋ = 4640 by norm_num)]
    rw [jsToFixed_nonneg 0 le_rfl (show ⌊(0 : ℚ) * 10 ^ 0 + 1 / 2⌋ = 0 by norm_num)]
    decide
  · intro t
    exact jsToFixed_two_decimals (remainingKm3_nonneg t)

/-- Witness for C4 at concrete inputs. -/
theorem display_formatting_witness :
    formatNumber (String.mk ['1', '2', '3', '4']) = groupedFromRight (String.mk ['1', '2', '3', '4'])
    ∧ ∃ n : ℕ, jsToFixed (3 / 2 : ℚ) 0 = String.mk (Nat.repr n).data
        ∧ |(n : ℚ) - 3 / 2| ≤ 1 / 2 :=
  ⟨display_formatting.1 _ (by unfold allDigits; decide),
   display_formatting.2.2.2.2.2.2 (3 / 2) (by norm_num)⟩

/-- C6, counterexample to the claim as stated: a starting state whose label is not one
of the two handler-written labels is not restored by two consecutive activations (the
mute flag returns, but the label is overwritten with the handler's canonical text). -/
theorem audio_double_click_cex :
    ¬ (audioToggleClick (audioToggleClick ⟨true, ("original label"), true⟩) =
        (⟨true, ("original label"), true⟩ : AudioState)) := by
  decide

/-- C6, amended: two consecutive activations always return the mute flag to its
original value, and they return all three fields (mute flag, label, visual-active
flag) to their original values whenever the starting label and visual-active flag are
consistent with the mute flag, i.e. equal to what the handler itself would have set
(which holds for every state the handler produces). -/
theorem audio_double_click :
    ∀ s : AudioState, (audioToggleClick (audioToggleClick s)).muted = s.muted
      ∧ (audioConsistent s → audioToggleClick (audioToggleClick s) = s) := by
  intro s
  rcases s with ⟨m, l, a⟩
  constructor
  · cases m <;> rfl
  · intro h
    rcases h with ⟨h1, h2⟩
    cases m <;> simp_all [audioToggleClick, audioConsistent]

/-- Witness for C6 at a concrete consistent state. -/
theorem audio_double_click_witness :
    audioToggleClick (audioToggleClick ⟨true, ("Ton abspielen"), false⟩) =
      (⟨true, ("Ton abspielen"), false⟩ : AudioState) :=
  (audio_double_click ⟨true, ("Ton abspielen"), false⟩).2 (by constructor <;> rfl)

/-- C7: after every activation of the audio toggle, the media element is unmuted if
and only if the control is marked visually active, if and only if the label shows the
mute prompt text. -/
theorem audio_toggle_invariant :
    ∀ s : AudioState,
      ((audioToggleClick s).muted = false ↔ (audioToggleClick s).active = true)
      ∧ ((audioToggleClick s).muted = false ↔
          (audioToggleClick s).label = ("Ton ausschalten")) := by
  intro s
  rcases s with ⟨m, l, a⟩
  cases m <;> simp [audioToggleClick]

/-- C8, counterexample to the claim as stated: with only the media element missing,
initialization completes fully with no error at all (no fail-fast configuration
error); and with only the toggle control missing, the counter interval is scheduled
but the listener is not attached, i.e. the page partially initializes. -/
theorem init_fail_fast_cex :
    runInit ⟨true, true, true, true, false⟩ = ⟨true, true, true, none⟩
    ∧ (runInit ⟨true, true, true, false, true⟩).intervalScheduled = true
    ∧ (runInit ⟨true, true, true, false, true⟩).listenerAttached = false := by
  decide

/-- C8, amended: initialization does not fail fast with a descriptive configuration
error. A missing counter region causes an uncaught host TypeError during the first
synchronous update, before the interval is scheduled; with the counter regions present
but the toggle control missing, the TypeError is thrown only after the interval is
scheduled, leaving the counters running while the listener and the map callback are
never attached (partial initialization); and a missing media element causes no
startup failure at all. -/
theorem init_behavior :
    ∀ d : DomPresence,
      (runInit d).intervalScheduled = (d.volumeRemaining && d.meltedSince && d.truckCount)
      ∧ (runInit d).listenerAttached =
          (d.volumeRemaining && d.meltedSince && d.truckCount && d.audioToggle)
      ∧ (runInit d).initMapExposed = (runInit d).listenerAttached
      ∧ ((runInit d).error = none ↔
          (d.volumeRemaining && d.meltedSince && d.truckCount && d.audioToggle) = true)
      ∧ runInit { d with backgroundVideo := true } = runInit { d with backgroundVideo := false } := by
  intro d
  rcases d with ⟨v, m, tk, a, bv⟩
  cases v <;> cases m <;> cases tk <;> cases a <;> cases bv <;> decide

/-- C9: the map initializer constructs exactly one map, centered on the Matterhorn
coordinate with zoom 13, hybrid projection, 45° tilt, 0° heading and the default UI
chrome suppressed; its style list is exactly the dark theme (a full replacement, not a
merge with any default rules); and exactly one marker is placed, positioned at the
map's center coordinate with the fixed Matterhorn label. -/
theorem initMap_spec :
    initMap = ([⟨⟨matterhorn, 13, ("hybrid"), 45, 0, true⟩, darkStyle⟩],
        [⟨matterhorn, ("Matterhorn")⟩])
    ∧ initMap.1.length = 1
    ∧ initMap.2.length = 1
    ∧ (∀ g ∈ initMap.1, g.options.center = matterhorn ∧ g.options.zoom = 13
        ∧ g.options.mapTypeId = ("hybrid") ∧ g.options.tilt = 45 ∧ g.options.heading = 0
        ∧ g.options.disableDefaultUI = true ∧ g.styles = darkStyle)
    ∧ (∀ g ∈ initMap.1, ∀ mk ∈ initMap.2,
        mk.position = g.options.center ∧ mk.title = ("Matterhorn")) := by
  refine ⟨rfl, rfl, rfl, ?_, ?_⟩
  · intro g hg
    have hg1 : g = ⟨⟨matterhorn, 13, ("hybrid"), 45, 0, true⟩, darkStyle⟩ := by
      simpa [initMap] using hg
    rw [hg1]
    exact ⟨rfl, rfl, rfl, rfl, rfl, rfl, rfl⟩
  · intro g hg mk hmk
    have hg1 : g = ⟨⟨matterhorn, 13, ("hybrid"), 45, 0, true⟩, darkStyle⟩ := by
      simpa [initMap] using hg
    have hm1 : mk = ⟨matterhorn, ("Matterhorn")⟩ := by
      simpa [initMap] using hmk
    rw [hg1, hm1]
    exact ⟨rfl, rfl⟩

/-- C10: the formatter groups only the digits and leaves a leading minus sign in
place; the string -1234567 formats to -1,234,567; and whenever the melted volume or
the truck count lies strictly between -0.5 and 0, the corresponding display region
shows -0. -/
theorem negative_formatting :
    (∀ l : List Char, allDigits l →
      formatNumber (String.mk ('-' :: l)) = String.mk ('-' :: (formatNumber (String.mk l)).data))
    ∧ formatNumber ("-1234567") = ("-1,234,567")
    ∧ (∀ t : ℚ, -(1 / 2) < meltedM3 t → meltedM3 t < 0 → (updateCounters t).2.1 = ("-0"))
    ∧ (∀ t : ℚ, -(1 / 2) < trucks t → trucks t < 0 → (updateCounters t).2.2 = ("-0")) := by
  refine ⟨fun l h => formatNumber_dash h, by decide, ?_, ?_⟩
  · intro t h1 h2
    show formatNumber (jsToFixed (meltedM3 t) 0) = ("-0")
    rw [jsToFixed_neg_small h1 h2]
    decide
  · intro t h1 h2
    show formatNumber (jsToFixed (trucks t) 0) = ("-0")
    rw [jsToFixed_neg_small h1 h2]
    decide

/-- Witness for C10 at concrete inputs. -/
theorem negative_formatting_witness :
    formatNumber (String.mk ('-' :: ['5', '0', '0'])) =
      String.mk ('-' :: (formatNumber (String.mk ['5', '0', '0'])).data)
    ∧ (updateCounters (-(1 / 100))).2.1 = ("-0")
    ∧ (updateCounters (-(1 / 100))).2.2 = ("-0") :=
  ⟨negative_formatting.1 ['5', '0', '0'] (by unfold allDigits; decide),
   negative_formatting.2.2.1 (-(1 / 100))
     (by norm_num [meltedM3, MELT_RATE_M3_PER_SEC, YEARLY_MELT_KM3, SECONDS_PER_YEAR])
     (by norm_num [meltedM3, MELT_RATE_M3_PER_SEC, YEARLY_MELT_KM3, SECONDS_PER_YEAR]),
   negative_formatting.2.2.2 (-(1 / 100))
     (by norm_num [trucks, TRUCK_RATE_PER_SEC, MELT_RATE_L_PER_SEC, MELT_RATE_M3_PER_SEC,
        YEARLY_MELT_KM3, SECONDS_PER_YEAR, TRUCK_CAPACITY_L])
     (by norm_num [trucks, TRUCK_RATE_PER_SEC, MELT_RATE_L_PER_SEC, MELT_RATE_M3_PER_SEC,
        YEARLY_MELT_KM3, SECONDS_PER_YEAR, TRUCK_CAPACITY_L])⟩

end SwissGlacier
